import Mathlib

/-!
Verification development for the OCR-Engine invoice Field Extraction Engine
(`app/utils/data_extractor.py`).  The Python module is shallowly embedded:
every regular expression of the source is translated into an explicit,
executable scanner over `List Char` with Python `re` semantics (leftmost
match, greediness, word boundaries, non-overlapping `finditer`), monetary
amounts become `Option ℚ`, calendar dates become an explicit `PyDate`
record validated exactly like `datetime.date`, and the two external
libraries the module calls (`dateparser`, `price_parser`) are treated as
oracles / spec-modelled functions, since their code is not part of the
repository.  Exceptions are modelled by `Option`/`Except` results.
-/

/-! ## Character classes (Python `re` semantics, ASCII fragment) -/

abbrev Cs := List Char

/-- Python `\s` and `str.strip()` whitespace: space, tab, newline, carriage
return, vertical tab, form feed. -/
def pyIsSpace (c : Char) : Bool :=
  c = ' ' || c = '\t' || c = '\n' || c = '\r' || c = '\x0b' || c = '\x0c'

/-- Python `\w` / word character used by the `\b` word-boundary assertion. -/
def isWordC (c : Char) : Bool := c.isAlphanum || c = '_'

/-- Word test on the character preceding the current position (`none` at the
start of the subject string, where `\b` holds before a word char). -/
def isWordOpt : Option Char → Bool
  | none => false
  | some c => isWordC c

/-- `\b` after a word character: the next character must not be a word
character (or the string ends). -/
def headNotWord : Cs → Bool
  | [] => true
  | c :: _ => ! isWordC c

/-- The separator class `[/.-]` of the numeric date patterns. -/
def sepSlashDotDash (c : Char) : Bool := c = '/' || c = '.' || c = '-'

/-- The separator class `[.]` (dotted numeric date pattern). -/
def sepDot (c : Char) : Bool := c = '.'

/-- The separator class `[-]` (dashed numeric date pattern). -/
def sepDash (c : Char) : Bool := c = '-'

/-- The class `[:\s]` used after field labels. -/
def sepColonSpace (c : Char) : Bool := c = ':' || pyIsSpace c

/-- Python `str.strip()`. -/
def pyStrip (cs : Cs) : Cs :=
  ((cs.dropWhile pyIsSpace).reverse.dropWhile pyIsSpace).reverse

/-- Python `str.split(sep)` for a one-character separator: always returns at
least one (possibly empty) piece. -/
def splitOnChar (sep : Char) : Cs → List Cs
  | [] => [[]]
  | c :: cs =>
    if c = sep then [] :: splitOnChar sep cs
    else
      match splitOnChar sep cs with
      | [] => [[c]]
      | l :: ls => (c :: l) :: ls

/-- Python `sep.join(pieces)` for a one-character separator. -/
def joinChar (sep : Char) : List Cs → Cs
  | [] => []
  | x :: xs => x ++ xs.flatMap (fun y => sep :: y)

/-- Case-insensitive literal match (the `(?i)` flag on an escaped literal):
consumes exactly `pat.length` characters, returns the rest. `pat` is given
lower-case. -/
def matchCI : Cs → Cs → Option Cs
  | [], s => some s
  | _ :: _, [] => none
  | k :: ks, c :: cs => if c.toLower = k then matchCI ks cs else none

/-! ## Calendar dates (`datetime.date`) -/

/-- A calendar date as produced by Python's `datetime.date` constructor. -/
structure PyDate where
  year : Nat
  month : Nat
  day : Nat
deriving DecidableEq

/-- Proleptic Gregorian leap-year rule used by `datetime.date`. -/
def isLeapYear (y : Nat) : Bool := y % 4 = 0 && (y % 100 ≠ 0 || y % 400 = 0)

def daysInMonth (y m : Nat) : Nat :=
  if m = 2 then (if isLeapYear y then 29 else 28)
  else if m = 4 || m = 6 || m = 9 || m = 11 then 30
  else 31

/-- `datetime.date(y, m, d)`: `some` on success, `none` where the Python
constructor raises `ValueError` (year outside 1..9999, bad month or day). -/
def mkValidDate (y m d : Nat) : Option PyDate :=
  if 1 ≤ y && y ≤ 9999 && 1 ≤ m && m ≤ 12 && 1 ≤ d && d ≤ daysInMonth y m then
    some ⟨y, m, d⟩
  else none

/-- Chronological comparison of dates (spec-side helper used to state the
plausible-range property of §8 of the spec). -/
def dateLEb (a b : PyDate) : Bool :=
  a.year < b.year ||
    (a.year = b.year &&
      (a.month < b.month || (a.month = b.month && a.day ≤ b.day)))

/-! ## Numeric parsing -/

/-- Numeric value of a digit string (`int` of a digit-only string). -/
def natOfDigits (cs : Cs) : Nat :=
  cs.foldl (fun n c => n * 10 + (c.toNat - '0'.toNat)) 0

/-- Unsigned part of Python's `Decimal` string grammar restricted to the
characters `[0-9.]`: digits with at most one decimal point, at least one
digit overall (`"1."`, `".5"` accepted; `""`, `"."`, `"1.2.3"` rejected). -/
def decimalCore (cs : Cs) : Option ℚ :=
  let (ip, r) := cs.span Char.isDigit
  match r with
  | [] => if ip.isEmpty then none else some (mkRat (natOfDigits ip) 1)
  | '.' :: fp =>
    if fp.all Char.isDigit && (!ip.isEmpty || !fp.isEmpty) then
      some (mkRat (natOfDigits (ip ++ fp)) (10 ^ fp.length))
    else none
  | _ => none

/-- `Decimal(cleaned)` where `cleaned` contains only `[0-9.-]`: an optional
leading minus sign then the unsigned grammar; a minus anywhere else makes
the parse fail (`InvalidOperation`). -/
def pyDecimalOfCleaned : Cs → Option ℚ
  | '-' :: rest => (decimalCore rest).map (fun q => -q)
  | cs => decimalCore cs

/-- `re.sub(r'[^\d.-]', '', amount_string)`. -/
def pyCleanAmount (s : String) : Cs :=
  s.data.filter (fun c => c.isDigit || c = '.' || c = '-')

/-- Modelled from the spec: the third-party currency-string fallback
(`price_parser.Price.fromstring`), whose code is not part of this
repository — per §4.3 it "extracts a numeric magnitude" from free text.
Modelled as: from the first digit onward take the maximal run of digits,
dots and commas, drop trailing separators, drop commas, and parse the
remaining decimal; a string without digits yields no amount. -/
def priceFromString (s : String) : Option ℚ :=
  let cs := s.data.dropWhile (fun c => ! c.isDigit)
  if cs.isEmpty then none
  else
    let run := cs.takeWhile (fun c => c.isDigit || c = '.' || c = ',')
    let run := (run.reverse.dropWhile (fun c => ! c.isDigit)).reverse
    decimalCore (run.filter (fun c => c ≠ ','))

/-- `DataExtractor._parse_decimal`: blank input yields `None`; otherwise
strip every character that is not a digit, dot or minus and try a direct
`Decimal` parse; on failure fall back to the currency-string parser, whose
zero-or-missing amount yields `None` (`if price.amount else None`); every
failure path returns `None`, never an exception. -/
def parse_decimal (s : String) : Option ℚ :=
  if (pyStrip s.data).isEmpty then none
  else
    match pyDecimalOfCleaned (pyCleanAmount s) with
    | some q => some q
    | none =>
      match priceFromString s with
      | some a => if a = 0 then none else some a
      | none => none

/-- Digit tail of Python's `int()` literal grammar: digits with single
underscores allowed between digits only. -/
def intDigitsTail : Cs → Bool
  | [] => true
  | '_' :: c :: r => c.isDigit && intDigitsTail r
  | '_' :: [] => false
  | c :: r => c.isDigit && intDigitsTail r

/-- Python `int(string)`: optional surrounding whitespace, optional sign,
then a non-empty digit string (underscore separators allowed between
digits). `none` where Python raises `ValueError`. -/
def pyParseInt (s : String) : Option Int :=
  let cs := pyStrip s.data
  let (sgn, body) : Int × Cs :=
    match cs with
    | '-' :: r => (-1, r)
    | '+' :: r => (1, r)
    | r => (1, r)
  match body with
  | [] => none
  | c :: r =>
    if c.isDigit && intDigitsTail r then
      some (sgn * (natOfDigits ((c :: r).filter (fun x => x ≠ '_')) : Int))
    else none

/-- `datetime.strptime(value, '%Y-%m-%d').date()`: `none` where Python
raises `ValueError`.  `%Y` matches exactly four digits, `%m` and `%d` one
or two, the whole string must be consumed, and out-of-range components
raise. -/
def pyStrptimeYmd (s : String) : Option PyDate :=
  match splitOnChar '-' s.data with
  | [y, m, d] =>
    if y.length = 4 && y.all Char.isDigit &&
       !m.isEmpty && m.length ≤ 2 && m.all Char.isDigit &&
       !d.isEmpty && d.length ≤ 2 && d.all Char.isDigit then
      mkValidDate (natOfDigits y) (natOfDigits m) (natOfDigits d)
    else none
  | _ => none

/-! ## Scanning machinery: `re.search` and `re.finditer`

Every pattern of the source is compiled by hand into a matcher that attempts
a match at one position.  A matcher receives the character preceding the
position (`none` at the string start, needed for `\b`) and the suffix.
`searchFirst` tries every position left to right (= `re.search`), `findIter`
yields all non-overlapping matches left to right (= `re.finditer` /
`re.findall`), resuming after each match.  The fuel is the subject length
plus one; every matcher consumes at least one character on success, so the
fuel never runs out. -/

def searchAux (m : Option Char → Cs → Option α) : Nat → Option Char → Cs → Option α
  | 0, _, _ => none
  | n + 1, p, s =>
    match m p s with
    | some a => some a
    | none =>
      match s with
      | [] => none
      | c :: cs => searchAux m n (some c) cs

/-- Leftmost match over all start positions: `re.search`. -/
def searchFirst (m : Option Char → Cs → Option α) (s : Cs) : Option α :=
  searchAux m (s.length + 1) none s

/-- A `finditer` matcher returns (captured value, consumed characters, rest). -/
def findIterAux (m : Option Char → Cs → Option (α × Cs × Cs)) :
    Nat → Option Char → Cs → List α
  | 0, _, _ => []
  | n + 1, p, s =>
    match m p s with
    | some (a, g, rest) =>
      a :: findIterAux m n (match g.getLast? with | some c => some c | none => p) rest
    | none =>
      match s with
      | [] => []
      | c :: cs => findIterAux m n (some c) cs

/-- All non-overlapping matches, left to right: `re.finditer` / `re.findall`. -/
def findIter (m : Option Char → Cs → Option (α × Cs × Cs)) (s : Cs) : List α :=
  findIterAux m (s.length + 1) none s

/-! ## The eleven `date_patterns` regexes

Greediness analysis: in every pattern each quantified character class is
followed by a character outside that class, so the maximal run is the only
possible match of the quantifier; the compiled matchers therefore read
maximal runs and check length bounds, which is exactly Python's
backtracking semantics for these patterns.  A trailing `\d{a,b}\b` matches
iff the maximal digit run has length in `[a, b]` and is followed by a
non-word character (any shorter prefix is followed by a digit, a word
character). -/

/-- `\b(\d{1,2}SEP\d{1,2}SEP\d{2,4})\b` for a separator class `SEP`
(patterns 1, 7 and 8 of `date_patterns`, with `[/.-]`, `[.]`, `[-]`). -/
def matchNumTriple (sepOk : Char → Bool) (p : Option Char) (s : Cs) :
    Option (Cs × Cs × Cs) :=
  if isWordOpt p then none else
  let (d1, r1) := s.span Char.isDigit
  if d1.length = 0 || 2 < d1.length then none else
  match r1 with
  | s1 :: r2 =>
    if sepOk s1 then
      let (d2, r3) := r2.span Char.isDigit
      if d2.length = 0 || 2 < d2.length then none else
      match r3 with
      | s2 :: r4 =>
        if sepOk s2 then
          let (d3, r5) := r4.span Char.isDigit
          if 2 ≤ d3.length && d3.length ≤ 4 && headNotWord r5 then
            let g := d1 ++ s1 :: (d2 ++ s2 :: d3)
            some (g, g, r5)
          else none
        else none
      | [] => none
    else none
  | [] => none

/-- `\b(\d{4}[/.-]\d{1,2}[/.-]\d{1,2})\b` (pattern 2, ISO-like). -/
def matchYearTriple (p : Option Char) (s : Cs) : Option (Cs × Cs × Cs) :=
  if isWordOpt p then none else
  let (d1, r1) := s.span Char.isDigit
  if d1.length ≠ 4 then none else
  match r1 with
  | s1 :: r2 =>
    if sepSlashDotDash s1 then
      let (d2, r3) := r2.span Char.isDigit
      if d2.length = 0 || 2 < d2.length then none else
      match r3 with
      | s2 :: r4 =>
        if sepSlashDotDash s2 then
          let (d3, r5) := r4.span Char.isDigit
          if 1 ≤ d3.length && d3.length ≤ 2 && headNotWord r5 then
            let g := d1 ++ s1 :: (d2 ++ s2 :: d3)
            some (g, g, r5)
          else none
        else none
      | [] => none
    else none
  | [] => none

/-- `\b(\d{8})\b` — patterns 3, 10 and 11 (`\d{4}\d{2}\d{2}` and
`\d{2}\d{2}\d{4}` denote the same eight-digit language). -/
def matchEightDigits (p : Option Char) (s : Cs) : Option (Cs × Cs × Cs) :=
  if isWordOpt p then none else
  let (d, r) := s.span Char.isDigit
  if d.length = 8 && headNotWord r then some (d, d, r) else none

/-- `\b(\d{1,2}\s+[A-Za-z]{3,9}\.?\s+\d{2,4})\b` (pattern 4, "5 March 2024"). -/
def matchDayNameYear (p : Option Char) (s : Cs) : Option (Cs × Cs × Cs) :=
  if isWordOpt p then none else
  let (d1, r1) := s.span Char.isDigit
  if d1.length = 0 || 2 < d1.length then none else
  let (w1, r2) := r1.span pyIsSpace
  if w1.length = 0 then none else
  let (al, r3) := r2.span Char.isAlpha
  if al.length < 3 || 9 < al.length then none else
  let (dt, r4) : Cs × Cs := match r3 with
    | '.' :: t => (['.'], t)
    | t => ([], t)
  let (w2, r5) := r4.span pyIsSpace
  if w2.length = 0 then none else
  let (d2, r6) := r5.span Char.isDigit
  if 2 ≤ d2.length && d2.length ≤ 4 && headNotWord r6 then
    let g := d1 ++ w1 ++ al ++ dt ++ w2 ++ d2
    some (g, g, r6)
  else none

/-- `\b([A-Za-z]{3,9}\.?\s+\d{1,2},?\s+\d{2,4})\b` (pattern 5, "March 5, 2024"). -/
def matchNameDayYear (p : Option Char) (s : Cs) : Option (Cs × Cs × Cs) :=
  if isWordOpt p then none else
  let (al, r1) := s.span Char.isAlpha
  if al.length < 3 || 9 < al.length then none else
  let (dt, r2) : Cs × Cs := match r1 with
    | '.' :: t => (['.'], t)
    | t => ([], t)
  let (w1, r3) := r2.span pyIsSpace
  if w1.length = 0 then none else
  let (d1, r4) := r3.span Char.isDigit
  if d1.length = 0 || 2 < d1.length then none else
  let (cm, r5) : Cs × Cs := match r4 with
    | ',' :: t => ([','], t)
    | t => ([], t)
  let (w2, r6) := r5.span pyIsSpace
  if w2.length = 0 then none else
  let (d2, r7) := r6.span Char.isDigit
  if 2 ≤ d2.length && d2.length ≤ 4 && headNotWord r7 then
    let g := al ++ dt ++ w1 ++ d1 ++ cm ++ w2 ++ d2
    some (g, g, r7)
  else none

/-- `\b([A-Za-z]{3}\.?\s+[A-Za-z]{3}\.?\s+\d{2,4})\b` (pattern 6,
"Mon Mar 2024").  A letter run longer than three is followed by a letter
after its third character, so only exact three-letter runs can match. -/
def matchNameNameYear (p : Option Char) (s : Cs) : Option (Cs × Cs × Cs) :=
  if isWordOpt p then none else
  let (al1, r1) := s.span Char.isAlpha
  if al1.length ≠ 3 then none else
  let (dt1, r2) : Cs × Cs := match r1 with
    | '.' :: t => (['.'], t)
    | t => ([], t)
  let (w1, r3) := r2.span pyIsSpace
  if w1.length = 0 then none else
  let (al2, r4) := r3.span Char.isAlpha
  if al2.length ≠ 3 then none else
  let (dt2, r5) : Cs × Cs := match r4 with
    | '.' :: t => (['.'], t)
    | t => ([], t)
  let (w2, r6) := r5.span pyIsSpace
  if w2.length = 0 then none else
  let (d, r7) := r6.span Char.isDigit
  if 2 ≤ d.length && d.length ≤ 4 && headNotWord r7 then
    let g := al1 ++ dt1 ++ w1 ++ al2 ++ dt2 ++ w2 ++ d
    some (g, g, r7)
  else none

/-- `\b(\d{1,2}\s+\d{1,2}\s+\d{2,4})\b` (pattern 9, space-separated). -/
def matchNumSpaces (p : Option Char) (s : Cs) : Option (Cs × Cs × Cs) :=
  if isWordOpt p then none else
  let (d1, r1) := s.span Char.isDigit
  if d1.length = 0 || 2 < d1.length then none else
  let (w1, r2) := r1.span pyIsSpace
  if w1.length = 0 then none else
  let (d2, r3) := r2.span Char.isDigit
  if d2.length = 0 || 2 < d2.length then none else
  let (w2, r4) := r3.span pyIsSpace
  if w2.length = 0 then none else
  let (d3, r5) := r4.span Char.isDigit
  if 2 ≤ d3.length && d3.length ≤ 4 && headNotWord r5 then
    let g := d1 ++ w1 ++ d2 ++ w2 ++ d3
    some (g, g, r5)
  else none

/-- The `date_patterns` list of `_extract_date`, in source order. -/
def datePatterns : List (Option Char → Cs → Option (Cs × Cs × Cs)) :=
  [matchNumTriple sepSlashDotDash,
   matchYearTriple,
   matchEightDigits,
   matchDayNameYear,
   matchNameDayYear,
   matchNameNameYear,
   matchNumTriple sepDot,
   matchNumTriple sepDash,
   matchNumSpaces,
   matchEightDigits,
   matchEightDigits]

/-! ## Keyword windows, month-name scans, dotted two-digit years, 8-digit
fallbacks (the remaining strategies of `_extract_date`) -/

/-- `rf'(?i){keyword}[:\s]*(.{{0,50}})'`: keyword (case-insensitive), then a
maximal run of `[:\s]`, then up to 50 characters stopped by a newline
(Python `.` without `DOTALL`).  Captured value: the window (group 1). -/
def kwMatch (kw : Cs) (_ : Option Char) (s : Cs) : Option (Cs × Cs × Cs) :=
  match matchCI kw s with
  | none => none
  | some r1 =>
    let (seps, r2) := r1.span sepColonSpace
    let window := (r2.takeWhile (fun c => c ≠ '\n')).take 50
    some (window, s.take (kw.length + seps.length + window.length),
      r2.drop window.length)

/-- The `date_keywords` list of `_extract_date`, in source order. -/
def dateKeywords : List String :=
  ["date", "invoice date", "issue date", "dated", "invoice",
   "issued", "due date", "billing date", "transaction date",
   "document date", "statement date", "posting date"]

/-- All date-pattern matches inside all keyword windows, in the source's
nesting order (keyword, then keyword occurrence, then pattern, then match). -/
def keywordCandidates (text : Cs) : List Cs :=
  dateKeywords.flatMap (fun kw =>
    (findIter (kwMatch kw.data) text).flatMap (fun w =>
      datePatterns.flatMap (fun pm => findIter pm w)))

/-- All date-pattern matches over the whole text (pattern-major order). -/
def globalCandidates (text : Cs) : List Cs :=
  datePatterns.flatMap (fun pm => findIter pm text)

/-- `(\d{4})(\d{2})(\d{2})` (first `special_date_formats` pattern, no `\b`):
any eight consecutive digits, split 4/2/2. -/
def matchEightSplit1 (_ : Option Char) (s : Cs) :
    Option ((Cs × Cs × Cs) × Cs × Cs) :=
  let d := s.take 8
  if d.length = 8 && d.all Char.isDigit then
    some ((d.take 4, (d.drop 4).take 2, d.drop 6), d, s.drop 8)
  else none

/-- `(\d{2})(\d{2})(\d{4})` (second `special_date_formats` pattern):
any eight consecutive digits, split 2/2/4. -/
def matchEightSplit2 (_ : Option Char) (s : Cs) :
    Option ((Cs × Cs × Cs) × Cs × Cs) :=
  let d := s.take 8
  if d.length = 8 && d.all Char.isDigit then
    some ((d.take 2, (d.drop 2).take 2, d.drop 4), d, s.drop 8)
  else none

/-- The `special_date_formats` step: for the 4/2/2 split try
`date(year, month, day)`, for the 2/2/4 split (groups `first, second, year`)
try `date(year, second, first)` then `date(year, first, second)`; the first
constructor call that does not raise wins. -/
def specialDates (text : Cs) : Option PyDate :=
  match (findIter matchEightSplit1 text).findSome?
      (fun t => mkValidDate (natOfDigits t.1) (natOfDigits t.2.1) (natOfDigits t.2.2)) with
  | some d => some d
  | none =>
    (findIter matchEightSplit2 text).findSome? (fun t =>
      match mkValidDate (natOfDigits t.2.2) (natOfDigits t.2.1) (natOfDigits t.1) with
      | some d => some d
      | none => mkValidDate (natOfDigits t.2.2) (natOfDigits t.1) (natOfDigits t.2.1))

/-- `rf'(?i){month}\S*\.?\s+(\d{1,2})\S*\.?\s+(\d{4})'`.  Between two
whitespace runs, `\S*` absorbs everything after the captured digits and
`\.?` is subsumed by it, so the continuation position after each group is
the end of the current token regardless of how the regex engine splits it;
the greedy split (two digits if available) is the one Python reports. -/
def monMatch1 (name : Cs) (_ : Option Char) (s : Cs) :
    Option ((Cs × Cs) × Cs × Cs) :=
  match matchCI name s with
  | none => none
  | some r1 =>
    let nons1 := r1.takeWhile (fun c => ! pyIsSpace c)
    let r2 := r1.drop nons1.length
    let ws1 := r2.takeWhile pyIsSpace
    if ws1.length = 0 then none else
    let r3 := r2.drop ws1.length
    let drun := r3.takeWhile Char.isDigit
    if drun.length = 0 then none else
    let day := drun.take 2
    let r4 := r3.drop day.length
    let nons2 := r4.takeWhile (fun c => ! pyIsSpace c)
    let r5 := r4.drop nons2.length
    let ws2 := r5.takeWhile pyIsSpace
    if ws2.length = 0 then none else
    let r6 := r5.drop ws2.length
    let y4 := r6.take 4
    if y4.length = 4 && y4.all Char.isDigit then
      some ((day, y4),
        s.take (name.length + nons1.length + ws1.length + day.length +
          nons2.length + ws2.length + 4),
        r6.drop 4)
    else none

/-- `rf'(?i)(\d{1,2})\S*\.?\s+{month}\S*\.?\s+(\d{4})'`. -/
def monMatch2 (name : Cs) (_ : Option Char) (s : Cs) :
    Option ((Cs × Cs) × Cs × Cs) :=
  let drun := s.takeWhile Char.isDigit
  if drun.length = 0 then none else
  let day := drun.take 2
  let r1 := s.drop day.length
  let nons1 := r1.takeWhile (fun c => ! pyIsSpace c)
  let r2 := r1.drop nons1.length
  let ws1 := r2.takeWhile pyIsSpace
  if ws1.length = 0 then none else
  let r3 := r2.drop ws1.length
  match matchCI name r3 with
  | none => none
  | some r4 =>
    let nons2 := r4.takeWhile (fun c => ! pyIsSpace c)
    let r5 := r4.drop nons2.length
    let ws2 := r5.takeWhile pyIsSpace
    if ws2.length = 0 then none else
    let r6 := r5.drop ws2.length
    let y4 := r6.take 4
    if y4.length = 4 && y4.all Char.isDigit then
      some ((day, y4),
        s.take (day.length + nons1.length + ws1.length + name.length +
          nons2.length + ws2.length + 4),
        r6.drop 4)
    else none

/-- The `month_abbr` mapping, in source (insertion) order. -/
def monthAbbrs : List (String × Nat) :=
  [("jan", 1), ("feb", 2), ("mar", 3), ("apr", 4), ("may", 5), ("jun", 6),
   ("jul", 7), ("aug", 8), ("sep", 9), ("oct", 10), ("nov", 11), ("dec", 12)]

/-- The month-abbreviation step of `_extract_date`: for each month try the
"month day year" pattern over the text, then the "day month year" pattern;
each match attempts `date(int(year), month_num, int(day))`, skipping
`ValueError`s. -/
def monthAbbrScan (text : Cs) : Option PyDate :=
  monthAbbrs.findSome? (fun mn =>
    match (findIter (monMatch1 mn.1.data) text).findSome?
        (fun g => mkValidDate (natOfDigits g.2) mn.2 (natOfDigits g.1)) with
    | some d => some d
    | none =>
      (findIter (monMatch2 mn.1.data) text).findSome?
        (fun g => mkValidDate (natOfDigits g.2) mn.2 (natOfDigits g.1)))

/-- `\b(\d{1,2})\.(\d{1,2})\.(\d{2})\b`: the dotted two-digit-year pattern.
Captured value: the `(day, month, short-year)` groups. -/
def matchDotYY (p : Option Char) (s : Cs) : Option ((Cs × Cs × Cs) × Cs × Cs) :=
  if isWordOpt p then none else
  let (d1, r1) := s.span Char.isDigit
  if d1.length = 0 || 2 < d1.length then none else
  match r1 with
  | '.' :: r2 =>
    let (d2, r3) := r2.span Char.isDigit
    if d2.length = 0 || 2 < d2.length then none else
    match r3 with
    | '.' :: r4 =>
      let (d3, r5) := r4.span Char.isDigit
      if d3.length = 2 && headNotWord r5 then
        some ((d1, d2, d3), d1 ++ '.' :: (d2 ++ '.' :: d3), r5)
      else none
    | _ => none
  | _ => none

/-- The pivot-century expansion of a two-digit year (`year_short` is always
two digits, so string concatenation `f"{century}{year_short}"` is
`century * 100 + yy`): assume the current century unless the result is more
than 20 years in the future, in which case use the previous century. -/
def pivotYear (cy yy : Nat) : Nat :=
  let c := cy / 100
  let y := c * 100 + yy
  if cy + 20 < y then (c - 1) * 100 + yy else y

/-- One dotted match `(day, month, yy)`: build the pivoted year, try
`date(year, month, day)` and on `ValueError` retry `date(year, day, month)`. -/
def dotResolve (now : PyDate) (t : Cs × Cs × Cs) : Option PyDate :=
  let y := pivotYear now.year (natOfDigits t.2.2)
  match mkValidDate y (natOfDigits t.2.1) (natOfDigits t.1) with
  | some d => some d
  | none => mkValidDate y (natOfDigits t.1) (natOfDigits t.2.1)

/-- The dotted two-digit-year strategy (`dot_date_pattern` loop), shared
verbatim by `_extract_date` and `_extract_date_from_entities`. -/
def dotTwoDigitScan (now : PyDate) (text : Cs) : Option PyDate :=
  (findIter matchDotYY text).findSome? (dotResolve now)

/-! ## The `dateparser` oracle

`dateparser.parse` is a third-party library (not part of this repository);
the engine invokes it with various settings dictionaries and converts any
exception into "no result" (`try/except: pass`).  It is modelled as an
opaque total function from the settings and the input string to an optional
date (the `RELATIVE_BASE` setting carries `datetime.now()`); theorems
quantify over it or instantiate it. -/

/-- The settings dictionaries passed to `dateparser.parse`. -/
structure DPSettings where
  dateOrder : Option String := none
  preferDayOfMonth : Option String := none
  relativeBase : Option PyDate := none
  preferDatesFrom : Option String := none
deriving DecidableEq

/-- An arbitrary behaviour of `dateparser.parse` (exceptions ↦ `none`). -/
def DPOracle : Type := DPSettings → String → Option PyDate

/-- The always-failing oracle: `dateparser.parse` finds nothing / raises. -/
def dpNone : DPOracle := fun _ _ => none

/-- `for date_order in ['DMY', 'MDY', 'YMD']: ... dateparser.parse(...)`,
first success wins. -/
def tryOrders (dp : DPOracle) (now : PyDate) (pref : String) (s : String) :
    Option PyDate :=
  ["DMY", "MDY", "YMD"].findSome? (fun ord =>
    dp { dateOrder := some ord, preferDayOfMonth := some "first",
         relativeBase := some now, preferDatesFrom := some pref } s)

/-- Characters after the first `':'` (`entity.split(':', 1)[1]`). -/
def afterFirstColon (cs : Cs) : Cs :=
  (cs.dropWhile (fun c => c ≠ ':')).drop 1

/-- `DataExtractor._extract_date_from_entities`: for each entity string
tagged `invoice_date:` or `date:`, parse the value after the tag with the
three date orders (`PREFER_DATES_FROM: past`), then fall back to the dotted
two-digit-year strategy on the same value; first success wins. -/
def extract_date_from_entities (dp : DPOracle) (now : PyDate)
    (entities : List String) : Option PyDate :=
  entities.findSome? (fun e =>
    if "invoice_date:".data.isPrefixOf e.data || "date:".data.isPrefixOf e.data then
      let ds := pyStrip (afterFirstColon e.data)
      match tryOrders dp now "past" (String.mk ds) with
      | some d => some d
      | none => dotTwoDigitScan now ds
    else none)

/-- `DataExtractor._extract_date`: the full cascade — entity strings first;
then every date-pattern match inside every keyword window, parsed under the
three date orders (`PREFER_DATES_FROM: past`); then every date-pattern
match over the whole text (`PREFER_DATES_FROM: current_period`); then the
two eight-digit special formats; then the month-abbreviation scans; then
the dotted two-digit-year pattern; finally an unscoped `dateparser.parse`
of the entire text.  First success wins, otherwise `None`. -/
def extract_date (dp : DPOracle) (now : PyDate) (text : String)
    (entities : Option (List String)) : Option PyDate :=
  let fromEntities :=
    match entities with
    | some es => if es.isEmpty then none else extract_date_from_entities dp now es
    | none => none
  match fromEntities with
  | some d => some d
  | none =>
    match (keywordCandidates text.data).findSome?
        (fun c => tryOrders dp now "past" (String.mk c)) with
    | some d => some d
    | none =>
      match (globalCandidates text.data).findSome?
          (fun c => tryOrders dp now "current_period" (String.mk c)) with
      | some d => some d
      | none =>
        match specialDates text.data with
        | some d => some d
        | none =>
          match monthAbbrScan text.data with
          | some d => some d
          | none =>
            match dotTwoDigitScan now text.data with
            | some d => some d
            | none => dp { relativeBase := some now } text

/-! ## Data model

Modelled from the spec: the record types live in `app/models.py`, which is
not under `src/`; §3 of the spec fixes the fields, their optionality and
their defaults (all-empty strings, absent optionals, empty item list,
`pages` defaulting to 1), which is exactly what `Invoice(filename=...)`
relies on in the source. -/

structure Address where
  street : String := ""
  city : String := ""
  state : String := ""
  country : String := ""
  postal_code : String := ""
deriving DecidableEq

structure Vendor where
  name : String := ""
  address : Address := {}
deriving DecidableEq

structure InvoiceItem where
  description : String := ""
  quantity : Option Int := none
  unit_price : Option ℚ := none
  total : Option ℚ := none
deriving DecidableEq

structure Invoice where
  filename : String := ""
  invoice_number : Option String := none
  vendor : Vendor := {}
  invoice_date : Option PyDate := none
  grand_total : Option ℚ := none
  taxes : Option ℚ := none
  final_total : Option ℚ := none
  items : List InvoiceItem := []
  pages : Nat := 1
deriving DecidableEq

/-- `Invoice(filename=...)`: the minimal fallback invoice. -/
def filenameOnly (f : String) : Invoice := { filename := f }

/-- One OCR result dictionary (input contract of §6): missing `words` /
`num_pages` keys are `none`. -/
structure OCRResult where
  filename : String := ""
  text : String := ""
  words : Option (List String) := none
  tables : List (List (List String)) := []
  num_pages : Option Nat := none
deriving DecidableEq

/-- One structured-entity result dictionary; `entities = none` models a
dictionary without an `'entities'` key (and the falsy empty dictionary,
which also has no such key). -/
structure DocaiResult where
  entities : Option (List (String × String)) := none
  tables : List (List (List String)) := []
deriving DecidableEq

/-- `entities.get(key)` on the (unique-key) dictionary. -/
def egetOpt (es : List (String × String)) (k : String) : Option String :=
  (es.find? (fun q => q.1 = k)).map (fun q => q.2)

/-- `entities.get(key, '')`. -/
def eget (es : List (String × String)) (k : String) : String :=
  (egetOpt es k).getD ""

/-! ## Field extractors (`_extract_invoice_number`, `_extract_vendor`,
`_extract_address`, `_extract_totals`) -/

/-- `[:\s]*([A-Za-z0-9-]{5,})`: the tail shared by the three invoice-number
patterns — skip label separators, then a maximal alphanumeric-with-dashes
run of length at least five (the greedy `{5,}` group). -/
def numTok (t : Cs) : Option Cs :=
  let r := t.dropWhile sepColonSpace
  let tok := r.takeWhile (fun c => c.isAlphanum || c = '-')
  if 5 ≤ tok.length then some tok else none

/-- `(?i)invoice\s*number?[:\s]*([A-Za-z0-9-]{5,})`.  The optional `r` is
tried greedily first and dropped on failure of the tail. -/
def invP1 (_ : Option Char) (s : Cs) : Option Cs :=
  match matchCI "invoice".data s with
  | none => none
  | some r1 =>
    match matchCI "numbe".data (r1.dropWhile pyIsSpace) with
    | none => none
    | some r3 =>
      let withR : Option Cs :=
        match r3 with
        | c :: cs => if c.toLower = 'r' then numTok cs else none
        | [] => none
      match withR with
      | some tok => some tok
      | none => numTok r3

/-- `(?i)invoice\s*#[:\s]*([A-Za-z0-9-]{5,})`. -/
def invP2 (_ : Option Char) (s : Cs) : Option Cs :=
  match matchCI "invoice".data s with
  | none => none
  | some r1 =>
    match r1.dropWhile pyIsSpace with
    | '#' :: r2 => numTok r2
    | _ => none

/-- `(?i)inv[:\s]*([A-Za-z0-9-]{5,})`. -/
def invP3 (_ : Option Char) (s : Cs) : Option Cs :=
  match matchCI "inv".data s with
  | none => none
  | some r1 => numTok r1

/-- `DataExtractor._extract_invoice_number`: the three patterns searched in
order, first pattern with a match wins (group 1). -/
def extract_invoice_number (text : String) : Option String :=
  match searchFirst invP1 text.data with
  | some tok => some (String.mk tok)
  | none =>
    match searchFirst invP2 text.data with
    | some tok => some (String.mk tok)
    | none => (searchFirst invP3 text.data).map String.mk

/-- `(?i)LABEL[:\s]*\$?([\d,]+\.\d{2})`: label, separators, optional dollar,
then the amount group — a maximal `[\d,]` run (nonempty; a following `.`
can only come after the whole run since `.` is outside the class), a dot
and exactly two digits. -/
def amountAfterLabel (label : Cs) (_ : Option Char) (s : Cs) : Option Cs :=
  match matchCI label s with
  | none => none
  | some r1 =>
    let r2 := r1.dropWhile sepColonSpace
    let r3 : Cs := match r2 with
      | '$' :: t => t
      | t => t
    let digs := r3.takeWhile (fun c => c.isDigit || c = ',')
    if digs.length = 0 then none else
    match r3.drop digs.length with
    | '.' :: a :: b :: _ =>
      if a.isDigit && b.isDigit then some (digs ++ '.' :: [a, b]) else none
    | _ => none

/-- `DataExtractor._extract_totals`: independent scans for `subtotal`
(→ `grand_total`), `tax` (→ `taxes`) and `total` (→ `final_total`); each
found amount goes through `_parse_decimal`. -/
def extract_totals (text : String) : Option ℚ × Option ℚ × Option ℚ :=
  let g := match searchFirst (amountAfterLabel "subtotal".data) text.data with
    | some a => parse_decimal (String.mk a)
    | none => none
  let t := match searchFirst (amountAfterLabel "tax".data) text.data with
    | some a => parse_decimal (String.mk a)
    | none => none
  let f := match searchFirst (amountAfterLabel "total".data) text.data with
    | some a => parse_decimal (String.mk a)
    | none => none
  (g, t, f)

/-- `r'\b\d{5}(?:-\d{4})?\b'`: exactly five digits at a word boundary; the
optional `-dddd` extension is kept only when its own trailing boundary
holds, otherwise the five-digit match stands (the `-` is a non-word
character, so its boundary always holds). -/
def postalMatch (p : Option Char) (s : Cs) : Option Cs :=
  if isWordOpt p then none else
  let (d, r) := s.span Char.isDigit
  if d.length ≠ 5 then none else
  match r with
  | '-' :: r2 =>
    let (d4, r3) := r2.span Char.isDigit
    if d4.length = 4 && headNotWord r3 then some (d ++ '-' :: d4) else some d
  | _ => if headNotWord r then some d else none

/-- `r'([A-Za-z\s]+),\s*([A-Z]{2})'`: a maximal letters-and-whitespace run
(the class excludes `,`, so only the maximal run can precede the comma),
a comma, optional whitespace, two upper-case letters. -/
def cityStateMatch (_ : Option Char) (s : Cs) : Option (Cs × Cs) :=
  let (g1, r1) := s.span (fun c => c.isAlpha || pyIsSpace c)
  if g1.length = 0 then none else
  match r1 with
  | ',' :: r2 =>
    match r2.dropWhile pyIsSpace with
    | a :: b :: _ => if a.isUpper && b.isUpper then some (g1, [a, b]) else none
    | _ => none
  | _ => none

/-- `DataExtractor._extract_address`: first line is the street; on the
second line a postal-code search and a city/state search; everything else
stays empty (`country` is never assigned). -/
def extract_address (text : String) : Address :=
  let lines := splitOnChar '\n' text.data
  let street := String.mk (lines.headD [])
  match lines with
  | _ :: addressLine :: _ =>
    let postal : String := match searchFirst postalMatch addressLine with
      | some g => String.mk g
      | none => ""
    let cs : String × String := match searchFirst cityStateMatch addressLine with
      | some g => (String.mk (pyStrip g.1), String.mk g.2)
      | none => ("", "")
    { street := street, city := cs.1, state := cs.2, country := "",
      postal_code := postal }
  | _ => { street := street }

/-- `DataExtractor._extract_vendor`: the first line (`lines[0]`, possibly
empty) is the vendor name; lines 1–3 joined by newlines go to the address
extractor (`'\n'.join(lines[1:4]) if len(lines) > 1 else ""`). -/
def extract_vendor (text : String) : Vendor :=
  let lines := splitOnChar '\n' text.data
  match lines with
  | [] => { name := "", address := {} }
  | _ :: _ =>
    let name := String.mk (lines.headD [])
    let addressText : Cs :=
      if 1 < lines.length then joinChar '\n' ((lines.drop 1).take 3) else []
    { name := name, address := extract_address (String.mk addressText) }

/-! ## Line-item extraction -/

/-- One table row, as processed identically by the loop bodies of
`_extract_items` (heuristic path) and `_extract_from_docai` (structured
path): rows with fewer than 4 cells are ignored; `int(row[1])` on a
non-blank cell may raise `ValueError`, which drops the row; blank quantity,
price or total cells become `None`; `_parse_decimal` itself never raises. -/
def parseRowItem (row : List String) : Option InvoiceItem :=
  if 4 ≤ row.length then
    let qcell := row.getD 1 ""
    let pcell := row.getD 2 ""
    let tcell := row.getD 3 ""
    let price := if (pyStrip pcell.data).isEmpty then none else parse_decimal pcell
    let total := if (pyStrip tcell.data).isEmpty then none else parse_decimal tcell
    if (pyStrip qcell.data).isEmpty then
      some { description := row.getD 0 "", quantity := none,
             unit_price := price, total := total }
    else
      match pyParseInt qcell with
      | some q =>
        some { description := row.getD 0 "", quantity := some q,
               unit_price := price, total := total }
      | none => none
  else none

/-- `DataExtractor._extract_items` (heuristic path): for each table iterate
`table[1:] if len(table) > 1 else []` — the first row is skipped as a
header. -/
def extract_items (ocr : OCRResult) : List InvoiceItem :=
  ocr.tables.flatMap (fun t =>
    (if 1 < t.length then t.drop 1 else []).filterMap parseRowItem)

/-- The table loop of `_extract_from_docai` (structured path): every row is
data. -/
def docaiItems (tables : List (List (List String))) : List InvoiceItem :=
  tables.flatMap (fun t => t.filterMap parseRowItem)

/-! ## The two extraction paths and the pipeline -/

/-- `DataExtractor._extract_from_docai`: map entity keys to fields, parse
the date with strict `%Y-%m-%d`, parse `total_amount` into both
`grand_total` and `final_total` and `total_tax_amount` into `taxes`,
convert all table rows, and fix `pages = 1`. -/
def extract_from_docai (d : DocaiResult) (filename : String) : Invoice :=
  let es := d.entities.getD []
  { filename := filename
    invoice_number := some (eget es "invoice_id")
    vendor :=
      { name := eget es "supplier_name"
        address :=
          { street := eget es "supplier_address"
            city := eget es "supplier_city"
            state := eget es "supplier_state"
            country := eget es "supplier_country"
            postal_code := eget es "supplier_zip" } }
    invoice_date :=
      if (egetOpt es "invoice_date").isSome then
        pyStrptimeYmd (eget es "invoice_date")
      else none
    grand_total :=
      if (egetOpt es "total_amount").isSome then
        parse_decimal (eget es "total_amount")
      else none
    taxes :=
      if (egetOpt es "total_tax_amount").isSome then
        parse_decimal (eget es "total_tax_amount")
      else none
    final_total :=
      if (egetOpt es "total_amount").isSome then
        parse_decimal (eget es "total_amount")
      else none
    items := docaiItems d.tables
    pages := 1 }

/-- `text = ocr_result.get('text', ''); if not text and 'words' in
ocr_result: text = ' '.join(...)`. -/
def gcvText (ocr : OCRResult) : String :=
  if ocr.text = "" then
    match ocr.words with
    | some ws => String.mk (joinChar ' ' (ws.map String.data))
    | none => ocr.text
  else ocr.text

/-- `DataExtractor._extract_from_gcv`: the heuristic text path. -/
def extract_from_gcv (dp : DPOracle) (now : PyDate) (ocr : OCRResult)
    (filename : String) : Invoice :=
  { filename := filename
    invoice_number := extract_invoice_number (gcvText ocr)
    vendor := extract_vendor (gcvText ocr)
    invoice_date := extract_date dp now (gcvText ocr) none
    grand_total := (extract_totals (gcvText ocr)).1
    taxes := (extract_totals (gcvText ocr)).2.1
    final_total := (extract_totals (gcvText ocr)).2.2
    items := extract_items ocr
    pages := ocr.num_pages.getD 1 }

/-- `DataExtractor._is_invoice_valid`: Python truthiness of
`invoice_number or vendor.name or invoice_date or grand_total is not None`
(empty strings are falsy, any date is truthy, a zero total still counts). -/
def is_invoice_valid (inv : Invoice) : Bool :=
  (match inv.invoice_number with
   | some s => s ≠ ""
   | none => false) ||
  inv.vendor.name ≠ "" || inv.invoice_date.isSome || inv.grand_total.isSome

/-- `DataExtractor.extract_invoice_data`: if a structured result with an
`'entities'` key is supplied, build the candidate from it and return it
when valid; otherwise fall back to the heuristic path over the OCR result. -/
def extract_invoice_data (dp : DPOracle) (now : PyDate) (ocr : OCRResult)
    (docai : Option DocaiResult) : Invoice :=
  match docai with
  | some d =>
    match d.entities with
    | some _ =>
      let inv := extract_from_docai d ocr.filename
      if is_invoice_valid inv then inv
      else extract_from_gcv dp now ocr ocr.filename
    | none => extract_from_gcv dp now ocr ocr.filename
  | none => extract_from_gcv dp now ocr ocr.filename

/-! ## Batch boundary

The per-document and batch-level exception behaviour of
`_extract_single_result` / `extract_data` cannot arise inside the typed
embedding (every embedded function is total), so the possibility of a
Python exception is carried by explicit `Except` / `Option` parameters:
`ext` is the outcome of `extract_invoice_data` for one document (`.error`
models an escaped exception, e.g. an `AttributeError` from a malformed
table cell), `batchErr` models an exception escaping `asyncio.gather`
itself. -/

/-- `DataExtractor._extract_single_result`: any exception is caught and
replaced by the filename-only invoice. -/
def extract_single_result (ext : OCRResult → Except Unit Invoice)
    (r : OCRResult) : Invoice :=
  match ext r with
  | Except.ok inv => inv
  | Except.error _ => filenameOnly r.filename

/-- `DataExtractor.extract_data`: `asyncio.gather` maps the per-document
extraction over the batch in input order; an exception escaping the gather
is caught (`except Exception`) and replaced by one filename-only invoice
per input. -/
def extract_data (ext : OCRResult → Except Unit Invoice)
    (batchErr : Option Unit) (rs : List OCRResult) : List Invoice :=
  match batchErr with
  | some _ => rs.map (fun r => filenameOnly r.filename)
  | none => rs.map (extract_single_result ext)

/-! ## Concrete inputs used by the claim theorems -/

/-- A fixed "current date" (`datetime.now()`), mid-2024 as in the spec's
pivot-rule test. -/
def now2024 : PyDate := ⟨2024, 6, 15⟩

/-- The end-to-end text of §8 / claim C3, as an OCR result without tables. -/
def ocrC3 : OCRResult :=
  { filename := "f.pdf",
    text := "Invoice #: ABC-12345\nSubtotal: $100.00\nTax: $8.00\nTotal: $108.00" }

/-- The line-item table of §8 / claim C7. -/
def ocrC7 : OCRResult :=
  { filename := "t.pdf",
    tables := [[["Item", "Qty", "Price", "Total"],
                ["Widget", "2", "5.00", "10.00"]]] }

/-- A structured result whose candidate invoice is valid (non-empty
`invoice_id`). -/
def docaiC1 : DocaiResult := { entities := some [("invoice_id", "INV-7")] }

/-- A featureless OCR result. -/
def ocrA : OCRResult := { filename := "a.pdf" }

/-- A second document for batch witnesses. -/
def ocrCdoc : OCRResult :=
  { filename := "c.pdf", text := "Vendor X\nSubtotal: $10.00" }

/-- The failing middle document of the batch-isolation test. -/
def ocrBad : OCRResult := { filename := "bad" }

/-- A per-document outcome function whose extraction raises exactly on
`ocrBad` and otherwise succeeds with the real pipeline. -/
def extW : OCRResult → Except Unit Invoice := fun r =>
  if r.filename = "bad" then Except.error ()
  else Except.ok (extract_invoice_data dpNone now2024 r none)

/-- A per-document outcome function that never raises. -/
def extOkAll : OCRResult → Except Unit Invoice := fun r =>
  Except.ok (extract_invoice_data dpNone now2024 r none)

/-- Modelled from the spec: "the first non-empty line of the document text"
(§4.4), the vendor-name rule as the spec words it — used only to compare
the spec's wording with the code's behaviour. -/
def specFirstNonemptyLine (text : String) : Option String :=
  ((splitOnChar '\n' text.data).find? (fun l => ! l.isEmpty)).map String.mk

/-! ## Helper lemmas -/

theorem dropHeaderEq (t : List α) :
    (if 1 < t.length then t.drop 1 else []) = t.drop 1 := by
  cases t with
  | nil => rfl
  | cons a t' =>
    cases t' with
    | nil => rfl
    | cons b t'' => rw [if_pos (by simp [List.length_cons])]

theorem flatMapMapEq (l : List α) (f : α → β) (g : β → List γ) :
    (l.map f).flatMap g = l.flatMap (fun a => g (f a)) := by
  induction l with
  | nil => rfl
  | cons a t ih => simp only [List.map_cons, List.flatMap_cons, ih]

/-! ## Claim theorems -/

/-- Claim C1: given an OCR result and a structured entity result whose
entity mapping is non-empty, `extract_invoice_data` returns the invoice
built from the structured entities exactly when that candidate satisfies
the validity predicate; when the candidate fails the predicate, or when no
structured result is supplied, the result is exactly the heuristic text
path applied to the OCR result. -/
theorem c1_path_selection (dp : DPOracle) (now : PyDate) (ocr : OCRResult)
    (d : DocaiResult) (m : List (String × String))
    (hm : d.entities = some m) (_hne : m ≠ []) :
    (is_invoice_valid (extract_from_docai d ocr.filename) = true →
      extract_invoice_data dp now ocr (some d) =
        extract_from_docai d ocr.filename) ∧
    (is_invoice_valid (extract_from_docai d ocr.filename) = false →
      extract_invoice_data dp now ocr (some d) =
        extract_from_gcv dp now ocr ocr.filename) ∧
    extract_invoice_data dp now ocr none =
      extract_from_gcv dp now ocr ocr.filename := by
  refine ⟨?_, ?_, rfl⟩ <;> intro hv <;> simp [extract_invoice_data, hm, hv]

/-- Witness for C1 at a concrete valid structured result. -/
theorem c1_path_selection_witness :
    is_invoice_valid (extract_from_docai docaiC1 ocrA.filename) = true ∧
    extract_invoice_data dpNone now2024 ocrA (some docaiC1) =
      extract_from_docai docaiC1 ocrA.filename :=
  ⟨by decide,
   (c1_path_selection dpNone now2024 ocrA docaiC1 [("invoice_id", "INV-7")]
      rfl (by decide)).1 (by decide)⟩

/-- Claim C2: `extract_data` (with no batch-level failure) returns exactly
one invoice per input, in input order; a document whose extraction raises
becomes a filename-only invoice, and all other documents' outputs are
unchanged by its presence. -/
theorem c2_batch_isolation (ext : OCRResult → Except Unit Invoice)
    (rs : List OCRResult) :
    (extract_data ext none rs).length = rs.length ∧
    extract_data ext none rs = rs.map (extract_single_result ext) ∧
    (∀ r : OCRResult, ext r = Except.error () →
      extract_single_result ext r = filenameOnly r.filename) ∧
    (∀ (xs : List OCRResult) (r : OCRResult) (ys : List OCRResult),
      ext r = Except.error () →
      extract_data ext none (xs ++ r :: ys) =
        extract_data ext none xs ++
          filenameOnly r.filename :: extract_data ext none ys) := by
  refine ⟨by simp [extract_data], rfl, ?_, ?_⟩
  · intro r h
    simp [extract_single_result, h]
  · intro xs r ys h
    simp [extract_data, extract_single_result, h]

/-- Witness for C2: a three-document batch whose middle document fails. -/
theorem c2_batch_isolation_witness :
    extract_data extW none ([ocrA] ++ ocrBad :: [ocrCdoc]) =
      extract_data extW none [ocrA] ++
        filenameOnly ocrBad.filename :: extract_data extW none [ocrCdoc] :=
  (c2_batch_isolation extW ([ocrA] ++ ocrBad :: [ocrCdoc])).2.2.2
    [ocrA] ocrBad [ocrCdoc] rfl

/-- Claim C3 (code bug): on the OCR text
`"Invoice #: ABC-12345\nSubtotal: $100.00\nTax: $8.00\nTotal: $108.00"`
with no tables, heuristic extraction yields the claimed
`invoice_number`, `grand_total = 100`, `taxes = 8` and empty items, but
`final_total` is `100.00`, not the claimed `108.00`: the case-insensitive
regex `total[:\s]*\$?([\d,]+\.\d{2})` has no word boundary and first
matches the substring `total` inside `Subtotal`, so `final_total` is read
off the subtotal line.  Independent of the `dateparser` oracle and of the
current date. -/
theorem c3_heuristic_totals :
    ∀ (dp : DPOracle) (now : PyDate),
      (extract_invoice_data dp now ocrC3 none).invoice_number =
        some "ABC-12345" ∧
      (extract_invoice_data dp now ocrC3 none).grand_total = some 100 ∧
      (extract_invoice_data dp now ocrC3 none).taxes = some 8 ∧
      (extract_invoice_data dp now ocrC3 none).final_total = some 100 ∧
      (extract_invoice_data dp now ocrC3 none).final_total ≠ some 108 ∧
      (extract_invoice_data dp now ocrC3 none).items = [] := by
  intro dp now
  refine ⟨rfl, rfl, rfl, rfl, ?_, rfl⟩
  have h : (extract_invoice_data dp now ocrC3 none).final_total = some 100 := rfl
  rw [h]
  decide

/-- Claim C4 counterexample: the Date Resolution Engine returns
`1850-01-01` — outside the claimed range `[1990-01-01, now + 1 year]` —
for the digit strings `"185001015"` and `"18500101"` (under the
always-failing `dateparser` oracle; on the first input no library call is
even reachable, see the amended theorem).  The code applies its 8-digit
strategy (`(\d{4})(\d{2})(\d{2})`) and returns the encoded digits with no
plausibility check. -/
theorem c4_range_counterexample :
    extract_date dpNone now2024 "185001015" none = some ⟨1850, 1, 1⟩ ∧
    extract_date dpNone now2024 "18500101" none = some ⟨1850, 1, 1⟩ ∧
    dateLEb ⟨1990, 1, 1⟩ ⟨1850, 1, 1⟩ = false :=
  ⟨by decide, by decide, by decide⟩

/-- Claim C4 as amended: the Date Resolution Engine always returns absent
or a calendar date and never raises; on text where every strategy fails
(including the library parser finding nothing) it returns absent and never
fabricates a date; but a returned date is NOT guaranteed to lie within
`[1990-01-01, current date + 1 year]` — the unanchored 8-digit fallback
returns the encoded digits verbatim (here `1850-01-01`, for every oracle
behaviour and every current date, since no date-pattern regex matches the
9-digit run and thus no oracle call precedes the fallback). -/
theorem c4_date_engine_amended :
    (∀ (dp : DPOracle) (now : PyDate),
      extract_date dp now "185001015" none = some ⟨1850, 1, 1⟩) ∧
    (∀ now : PyDate, extract_date dpNone now "no match here" none = none) :=
  ⟨fun _ _ => rfl, fun _ => rfl⟩

/-- Claim C5: the two-digit-year dotted strategy expands `"01.02.05"` with
current year 2024 to `2005-02-01` (also end to end through the entity
branch when the library parser fails); in general the pivot rule keeps the
two-digit year, never lands more than 20 years in the future (for current
year 2024: always within 1945..2044, so never 1905 nor above 2044), uses
the current century unless that were more than 20 years ahead and the
previous century otherwise; and when the day-first column order fails the
month-first order is retried. -/
theorem c5_pivot_century :
    dotTwoDigitScan now2024 "01.02.05".data = some ⟨2005, 2, 1⟩ ∧
    extract_date_from_entities dpNone now2024 ["invoice_date: 01.02.05"] =
      some ⟨2005, 2, 1⟩ ∧
    (∀ cy yy : Nat, yy < 100 → 100 ≤ cy →
      pivotYear cy yy % 100 = yy ∧
      pivotYear cy yy ≤ cy + 20 ∧
      (100 * (cy / 100) + yy ≤ cy + 20 →
        pivotYear cy yy = 100 * (cy / 100) + yy) ∧
      (cy + 20 < 100 * (cy / 100) + yy →
        pivotYear cy yy = 100 * (cy / 100) + yy - 100)) ∧
    (∀ yy : Nat, yy < 100 → 1945 ≤ pivotYear 2024 yy ∧ pivotYear 2024 yy ≤ 2044) ∧
    (∀ (now : PyDate) (d m yy : Cs),
      mkValidDate (pivotYear now.year (natOfDigits yy)) (natOfDigits m)
          (natOfDigits d) = none →
      dotResolve now (d, m, yy) =
        mkValidDate (pivotYear now.year (natOfDigits yy)) (natOfDigits d)
          (natOfDigits m)) := by
  refine ⟨by decide, by decide, ?_, ?_, ?_⟩
  · intro cy yy h1 h2
    refine ⟨?_, ?_, ?_, ?_⟩ <;> (simp only [pivotYear]; split <;> omega)
  · intro yy h
    constructor <;> (simp only [pivotYear]; split <;> omega)
  · intro now d m yy h
    simp [dotResolve, h]

/-- Witness for C5 at concrete pivot inputs and a transposed dotted date
(`"12.25.05"`: day-first `date(2005, 25, 12)` fails, month-first
`date(2005, 12, 25)` succeeds). -/
theorem c5_pivot_century_witness :
    pivotYear 2024 5 % 100 = 5 ∧
    pivotYear 2024 5 ≤ 2044 ∧
    dotResolve ⟨2024, 1, 1⟩ ("12".data, "25".data, "05".data) =
      mkValidDate 2005 12 25 :=
  ⟨(c5_pivot_century.2.2.1 2024 5 (by decide) (by decide)).1,
   (c5_pivot_century.2.2.2.1 5 (by decide)).2,
   c5_pivot_century.2.2.2.2 ⟨2024, 1, 1⟩ "12".data "25".data "05".data (by decide)⟩

/-- Claim C6: the Amount Parser maps `"$1,234.56"` to 1234.56, `"1234"` to
1234, `"N/A"` to absent and `"-50.00"` to −50.00; and for every input
string, whenever both the direct decimal parse of the stripped string and
the currency-string fallback fail, the result is absent (the function is
total, so nothing is ever raised to the caller). -/
theorem c6_amount_parsing :
    parse_decimal "$1,234.56" = some (mkRat 123456 100) ∧
    parse_decimal "1234" = some 1234 ∧
    parse_decimal "N/A" = none ∧
    parse_decimal "-50.00" = some (-50) ∧
    (∀ s : String, pyDecimalOfCleaned (pyCleanAmount s) = none →
      priceFromString s = none → parse_decimal s = none) := by
  refine ⟨by decide, by decide, by decide, by decide, ?_⟩
  intro s h1 h2
  simp [parse_decimal, h1, h2]

/-- Witness for C6 at a digit-free input where both parses fail. -/
theorem c6_amount_parsing_witness :
    pyDecimalOfCleaned (pyCleanAmount "x/y") = none ∧
    priceFromString "x/y" = none ∧
    parse_decimal "x/y" = none :=
  ⟨by decide, by decide, c6_amount_parsing.2.2.2.2 "x/y" (by decide) (by decide)⟩

/-- Claim C7: the heuristic item extractor processes exactly the rows after
the first of every table (header skipped) while the structured-path loop
processes all rows; in both loops only rows with at least 4 cells yield an
item; a row whose quantity cell is non-blank but fails integer parsing is
dropped (the loop continues, nothing propagates); the header/widget table
yields exactly one item `(quantity 2, unit_price 5.00, total 10.00)`. -/
theorem c7_line_items :
    (∀ ocr : OCRResult,
      extract_items ocr = docaiItems (ocr.tables.map (fun t => t.drop 1))) ∧
    (∀ row : List String, row.length < 4 → parseRowItem row = none) ∧
    (∀ row : List String, 4 ≤ row.length →
      (pyStrip (row.getD 1 "").data).isEmpty = false →
      pyParseInt (row.getD 1 "") = none → parseRowItem row = none) ∧
    extract_items ocrC7 =
      [{ description := "Widget", quantity := some 2,
         unit_price := some 5, total := some 10 }] := by
  refine ⟨?_, ?_, ?_, by decide⟩
  · intro ocr
    simp only [extract_items, docaiItems, flatMapMapEq, dropHeaderEq]
  · intro row h
    simp [parseRowItem, Nat.not_le.mpr h]
  · intro row h4 hq hp
    simp at hq hp
    simp [parseRowItem, h4, hq, hp]

/-- Witness for C7: a short row and a row with an unparseable quantity. -/
theorem c7_line_items_witness :
    parseRowItem ["only", "two"] = none ∧
    parseRowItem ["desc", "xx", "1.00", "2.00"] = none :=
  ⟨c7_line_items.2.1 ["only", "two"] (by decide),
   c7_line_items.2.2.1 ["desc", "xx", "1.00", "2.00"]
     (by decide) (by decide) (by decide)⟩

/-- Claim C8 counterexample: for the text `"\nACME Corp\n123 Main St"` the
spec's rule names the first non-empty line (`"ACME Corp"`) as the vendor
name, but the code takes `lines[0]` unconditionally, so the extracted
vendor name is the empty first line. -/
theorem c8_vendor_counterexample :
    specFirstNonemptyLine "\nACME Corp\n123 Main St" = some "ACME Corp" ∧
    (extract_vendor "\nACME Corp\n123 Main St").name = "" ∧
    (extract_vendor "\nACME Corp\n123 Main St").name ≠ "ACME Corp" :=
  ⟨by decide, by decide, by decide⟩

/-- Claim C8 as amended: the heuristic vendor extractor takes the first
line of the text — even if empty — as the vendor name, and passes the
following up to three lines to the address extractor; address fields not
matched remain empty (`country` is never assigned, and a block with fewer
than two lines leaves city, state and postal code empty); no error is
raised for a short or malformed block (the functions are total). -/
theorem c8_vendor_amended :
    (∀ text : String,
      (extract_vendor text).name =
        String.mk ((splitOnChar '\n' text.data).headD []) ∧
      (extract_vendor text).address =
        extract_address (String.mk (joinChar '\n'
          (((splitOnChar '\n' text.data).drop 1).take 3)))) ∧
    (∀ t : String, (splitOnChar '\n' t.data).length ≤ 1 →
      (extract_address t).city = "" ∧ (extract_address t).state = "" ∧
      (extract_address t).postal_code = "") ∧
    (∀ t : String, (extract_address t).country = "") := by
  refine ⟨?_, ?_, ?_⟩
  · intro text
    rcases h : splitOnChar '\n' text.data with _ | ⟨a, _ | ⟨b, r⟩⟩ <;>
      simp [extract_vendor, h, joinChar]
    all_goals decide
  · intro t h
    rcases h' : splitOnChar '\n' t.data with _ | ⟨a, _ | ⟨b, r⟩⟩
    · simp [extract_address, h']
    · simp [extract_address, h']
    · rw [h'] at h; simp [List.length_cons] at h
  · intro t
    rcases h' : splitOnChar '\n' t.data with _ | ⟨a, _ | ⟨b, r⟩⟩ <;>
      simp [extract_address, h']

/-- Witness for C8 at concrete texts. -/
theorem c8_vendor_amended_witness :
    (extract_vendor "X\nY").name =
      String.mk ((splitOnChar '\n' "X\nY".data).headD []) ∧
    (splitOnChar '\n' "solo".data).length ≤ 1 ∧
    (extract_address "solo").city = "" :=
  ⟨(c8_vendor_amended.1 "X\nY").1, by decide,
   (c8_vendor_amended.2.1 "solo" (by decide)).1⟩

/-- Claim C9 counterexample: with a batch-level failure (an exception
escaping the fan-out, modelled by the `some ()` outcome), `extract_data`
does NOT surface the exception: the `except Exception` branch catches it
and returns a substitute result list — one filename-only invoice per
input. -/
theorem c9_batch_counterexample :
    extract_data extOkAll (some ()) [ocrA] = [filenameOnly "a.pdf"] ∧
    (extract_data extOkAll (some ()) [ocrA]).length = 1 :=
  ⟨rfl, rfl⟩

/-- Claim C9 as amended: an exception escaping the batch fan-out is caught
by `extract_data`, which returns a substitute list with exactly one
filename-only invoice per input instead of surfacing the exception. -/
theorem c9_batch_catch_amended :
    ∀ (ext : OCRResult → Except Unit Invoice) (e : Unit)
      (rs : List OCRResult),
      extract_data ext (some e) rs =
        rs.map (fun r => filenameOnly r.filename) ∧
      (extract_data ext (some e) rs).length = rs.length := by
  intro ext e rs
  exact ⟨rfl, by simp [extract_data]⟩

/-- Claim C10: on the structured-entity path the returned invoice always
satisfies `final_total = grand_total` — both are parsed from the same
`total_amount` entity value — and both are absent when that entity is
missing or its value unparseable. -/
theorem c10_docai_totals (d : DocaiResult) (f : String) :
    (extract_from_docai d f).final_total = (extract_from_docai d f).grand_total ∧
    (egetOpt (d.entities.getD []) "total_amount" = none →
      (extract_from_docai d f).grand_total = none ∧
      (extract_from_docai d f).final_total = none) ∧
    (∀ s : String, egetOpt (d.entities.getD []) "total_amount" = some s →
      (extract_from_docai d f).grand_total = parse_decimal s ∧
      (extract_from_docai d f).final_total = parse_decimal s) ∧
    (∀ s : String, egetOpt (d.entities.getD []) "total_amount" = some s →
      parse_decimal s = none →
      (extract_from_docai d f).grand_total = none ∧
      (extract_from_docai d f).final_total = none) := by
  refine ⟨rfl, ?_, ?_, ?_⟩
  · intro h
    constructor <;> simp [extract_from_docai, h]
  · intro s h
    constructor <;> simp [extract_from_docai, eget, h]
  · intro s h hp
    constructor <;> simp [extract_from_docai, eget, h, hp]

/-- Witness for C10: a missing `total_amount` entity, and an unparseable
one. -/
theorem c10_docai_totals_witness :
    (extract_from_docai { entities := some [] } "f").grand_total = none ∧
    (extract_from_docai { entities := some [("total_amount", "oops")] }
      "f").final_total = none :=
  ⟨((c10_docai_totals { entities := some [] } "f").2.1 rfl).1,
   ((c10_docai_totals { entities := some [("total_amount", "oops")] } "f").2.2.2
      "oops" rfl (by decide)).2⟩
